import Mathlib

/-!
Verification of the wizuallc semantic backend: a shallow embedding of the
code generator (src/wizuallc/src/codegen.c) and the symbol table
(src/wizuallc/src/symtab.c), together with theorems settling the frozen
claims about them.

Modelling conventions:
* Emitted output is a list of lines; each `emit(level, fmt, ...)` call of the
  C code appends exactly one line (4 spaces per indent level, the trailing
  newline of each line is implicit in the list structure).
* `double` scalar payloads are modelled as `Rat`; no claim depends on
  floating-point rounding, and number formatting (C's "%f") is abstracted by
  `fmtNum`.
* The C globals `temp_var_counter` and `codegen_error_occurred`, plus the
  output stream and the stderr diagnostics of `report_codegen_error`, form
  the explicit state `CGState` threaded through the generator.
* Printf-style formatting of the fixed runtime-helper text is modelled by the
  literal format string (those emit calls pass no varargs).
* Heap management (`strdup`/`free` of code fragments) has no observable
  effect on output or flags and is not modelled; the `is_temporary` ownership
  flag itself is part of `ExprResult` and is modelled faithfully.
-/

namespace Wizuall

/-- The `SymbolType` enum of symtab.h (`SYMBOL_TYPE_UNDEFINED = 0`,
`SYMBOL_TYPE_SCALAR = 1`, `SYMBOL_TYPE_VECTOR = 2`). -/
inductive SymbolType where
  | undefined
  | scalar
  | vector
deriving DecidableEq, Repr

/-- The numeric value of the enum constant, as printed by the `%d` format
directives of the C diagnostics. -/
def SymbolType.toNat : SymbolType → Nat
  | .undefined => 0
  | .scalar => 1
  | .vector => 2

/-- The view of a `Symbol` (symtab.h) that the code generator reads through
the non-owning symbol references stored in AST nodes: `sym->name` and
`sym->type`.  Symbol kind is fixed by the time generation starts (spec §3);
the generator never mutates symbols. -/
structure SymRef where
  name : String
  type : SymbolType
deriving DecidableEq, Repr

/-- The AST of ast.h: a tagged union over node kinds.  List-bearing kinds
hold their children in insertion order. -/
inductive ASTNode where
  | number (value : Rat)
  | vectorLit (elements : List ASTNode)
  | identifier (sym : SymRef)
  | binaryOp (op : Char) (left : ASTNode) (right : ASTNode)
  | unaryOp (op : Char) (operand : ASTNode)
  | assignment (target : SymRef) (expr : ASTNode)
  | statementList (stmts : List ASTNode)
  | ifStmt (cond : ASTNode) (ifBranch : ASTNode) (elseBranch : Option ASTNode)
  | whileStmt (cond : ASTNode) (body : ASTNode)
  | funcCall (callee : SymRef) (args : List ASTNode)

/-- The numeric value of the `NodeType` enum constant of ast.h for each node
kind (NODE_TYPE_NUMBER = 1 ... NODE_TYPE_FUNC_CALL = 10), as printed by the
`%d` directives of the fallback diagnostics. -/
def ASTNode.typeNum : ASTNode → Nat
  | .number _ => 1
  | .vectorLit _ => 2
  | .identifier _ => 3
  | .binaryOp _ _ _ => 4
  | .unaryOp _ _ => 5
  | .assignment _ _ => 6
  | .statementList _ => 7
  | .ifStmt _ _ _ => 8
  | .whileStmt _ _ => 9
  | .funcCall _ _ => 10

/-- The `ExprResult` struct of codegen.c. -/
structure ExprResult where
  code : String
  type : SymbolType
  is_temporary : Bool
deriving DecidableEq, Repr

/-- The mutable generation state: the output file contents (as emitted
lines), the two file-scope globals of codegen.c, and the stderr diagnostics
produced by `report_codegen_error`. -/
structure CGState where
  out : List String
  temp : Nat
  err : Bool
  errMsgs : List String
deriving DecidableEq, Repr

/-- A fresh state: empty output, `temp_var_counter = 0`,
`codegen_error_occurred = 0`, no diagnostics. -/
def initState : CGState := { out := [], temp := 0, err := false, errMsgs := [] }

/-- Four spaces per indent level, as produced by `emit`. -/
def indentStr (n : Nat) : String := String.join (List.replicate n ("    "))

/-- The `emit` helper of codegen.c: writes one line (indent, text, newline)
to the output file. -/
def emit (lvl : Nat) (text : String) (s : CGState) : CGState :=
  { s with out := s.out ++ [indentStr lvl ++ text] }

/-- `report_codegen_error`: prints a diagnostic to stderr and sets the sticky
`codegen_error_occurred` flag. -/
def report_codegen_error (msg : String) (s : CGState) : CGState :=
  { s with err := true, errMsgs := s.errMsgs ++ ["Semantic Error: " ++ msg] }

/-- `new_temp_scalar_var`: returns `_ts<n>` for the current counter value and
increments the shared counter. -/
def new_temp_scalar_var (s : CGState) : String × CGState :=
  ("_ts" ++ toString s.temp, { s with temp := s.temp + 1 })

/-- `new_temp_vector_var`: returns `_tv<n>` for the current counter value and
increments the shared counter. -/
def new_temp_vector_var (s : CGState) : String × CGState :=
  ("_tv" ++ toString s.temp, { s with temp := s.temp + 1 })

/-- Rendering of a number literal.  Stands in for the C `"%f"` formatting of
a `double`; no claim depends on the exact decimal text. -/
def fmtNum (q : Rat) : String := toString q

/-- The default `ExprResult` initialized at the top of `generate_expression`
(`{strdup("0.0"), SYMBOL_TYPE_SCALAR, 1}`), returned unchanged on the error
paths that do not overwrite it. -/
def defaultExprResult : ExprResult :=
  { code := "0.0", type := .scalar, is_temporary := true }

/-- The error result of the `scatter_plot` arity/type check in
`generate_expression`, shared by both failing shapes. -/
def scatterPlotError (s : CGState) : ExprResult × CGState :=
  (⟨"/* invalid scatter_plot call */", .scalar, true⟩,
   report_codegen_error ("scatter_plot() expects 2 vector arguments.") s)

/-- Does the argument-result list pass the `scatter_plot` check
(`arg_count == 2` and both results of vector kind)? -/
def scatterArgsOk : List ExprResult → Bool
  | [a, b] => a.type = SymbolType.vector && b.type = SymbolType.vector
  | _ => false

/-- The `c_scatter_plot` call line emitted for a well-formed `scatter_plot`
call (data pointer and length of each vector argument). -/
def scatterPlotLine : List ExprResult → String
  | [a, b] =>
      "c_scatter_plot(" ++ a.code ++ ".data, " ++ a.code ++ ".size, " ++
        b.code ++ ".data, " ++ b.code ++ ".size);"
  | _ => ""

/-- One argument as it appears in a generic external call: vector arguments
expand to a `(data, length)` pair, scalar arguments pass their code. -/
def genericArgText (a : ExprResult) : String :=
  if a.type = SymbolType.vector then a.code ++ ".data, " ++ a.code ++ ".size"
  else a.code

mutual

/-- `generate_expression` of codegen.c: translates one expression node,
returning the code fragment / resolved kind / ownership flag and the updated
generation state. -/
def generate_expression (node : ASTNode) (s : CGState) : ExprResult × CGState :=
  match node with
  | .number v =>
      (⟨fmtNum v, .scalar, true⟩, s)
  | .identifier sym =>
      (⟨sym.name, sym.type, true⟩, s)
  | .vectorLit elems =>
      let p := new_temp_vector_var s
      let tv := p.1
      let arrName := tv ++ "_init_data"
      let s := emit 1 ("// Generating vector literal for " ++ tv) p.2
      let s := emit 1 ("double " ++ arrName ++ "[] = \x7b") s
      let s := genVectorElements elems 0 elems.length s
      let s := emit 1 ("\x7d;") s
      let s := emit 1 ("vector_assign(&" ++ tv ++ ", (Vector)\x7b " ++ arrName ++
                        ", " ++ toString elems.length ++ " \x7d);") s
      (⟨tv, .vector, false⟩, s)
  | .binaryOp op l r =>
      let lp := generate_expression l s
      let rp := generate_expression r lp.2
      let lr := lp.1
      let rr := rp.1
      let s := rp.2
      if lr.type = SymbolType.scalar ∧ rr.type = SymbolType.scalar then
        let p := new_temp_scalar_var s
        let s := emit 1 (p.1 ++ " = (" ++ lr.code ++ ") " ++ op.toString ++
                          " (" ++ rr.code ++ ");") p.2
        (⟨p.1, .scalar, false⟩, s)
      else if lr.type = SymbolType.vector ∧ rr.type = SymbolType.vector then
        let p := new_temp_vector_var s
        let opFunc :=
          if op = '+' then "vector_add"
          else if op = '-' then "vector_sub"
          else if op = '*' then "vector_mul"
          else if op = '/' then "vector_div"
          else ""
        let s :=
          if opFunc = "" then
            emit 1 ("// ERROR: Unsupported vector binary op \x27" ++
                     op.toString ++ "\x27") p.2
          else p.2
        if opFunc = "" then
          (⟨"/* Invalid vector op */", .vector, true⟩, s)
        else
          let s := emit 1 (p.1 ++ " = " ++ opFunc ++ "(" ++ lr.code ++ ", " ++
                            rr.code ++ ");") s
          (⟨p.1, .vector, false⟩, s)
      else if lr.type = SymbolType.vector ∧ rr.type = SymbolType.scalar ∧ op = '+' then
        let p := new_temp_vector_var s
        let s := emit 1 (p.1 ++ " = vector_add_scalar(" ++ lr.code ++ ", " ++
                          rr.code ++ ");") p.2
        (⟨p.1, .vector, false⟩, s)
      else if lr.type = SymbolType.scalar ∧ rr.type = SymbolType.vector ∧ op = '+' then
        let p := new_temp_vector_var s
        let s := emit 1 (p.1 ++ " = vector_add_scalar(" ++ rr.code ++ ", " ++
                          lr.code ++ ");") p.2
        (⟨p.1, .vector, false⟩, s)
      else if (lr.type = SymbolType.vector ∧ rr.type = SymbolType.scalar) ∨
              (lr.type = SymbolType.scalar ∧ rr.type = SymbolType.vector) then
        if op = '+' then
          let p := new_temp_vector_var s
          let s := emit 1 (p.1 ++ " = vector_add_scalar(" ++ lr.code ++ ", " ++
                            rr.code ++ ");") p.2
          (⟨p.1, .vector, false⟩, s)
        else
          (defaultExprResult,
           report_codegen_error ("Unsupported binary operation \x27" ++
             op.toString ++ "\x27 between scalar and vector.") s)
      else
        (defaultExprResult,
         report_codegen_error ("Type mismatch for binary operation \x27" ++
           op.toString ++ "\x27 (LHS: " ++ toString lr.type.toNat ++
           ", RHS: " ++ toString rr.type.toNat ++ ").") s)
  | .unaryOp op e =>
      let lp := generate_expression e s
      let lr := lp.1
      let s := lp.2
      if lr.type = SymbolType.scalar ∧ op = '-' then
        let p := new_temp_scalar_var s
        let s := emit 1 (p.1 ++ " = " ++ op.toString ++ "(" ++ lr.code ++ ");") p.2
        (⟨p.1, .scalar, false⟩, s)
      else
        (⟨"/* type error */ 0.0", .scalar, true⟩,
         report_codegen_error ("Unsupported unary operation \x27" ++
           op.toString ++ "\x27 or type mismatch (Type: " ++
           toString lr.type.toNat ++ ").") s)
  | .funcCall callee args =>
      let funcName := callee.name
      let argCount := args.length
      let s := emit 1 ("// Generating function call: " ++ funcName ++ "()") s
      if funcName = "read_vector" then
        if argCount = 0 then
          let p := new_temp_vector_var s
          let s := emit 1 (p.1 ++ " = runtime_read_vector();") p.2
          (⟨p.1, .vector, false⟩, s)
        else
          (⟨"/* invalid read_vector call */", .vector, true⟩,
           report_codegen_error ("read_vector() expects 0 arguments, got " ++
             toString argCount ++ ".") s)
      else
        let ap := generate_arguments args s
        let argResults := ap.1
        let s := ap.2
        if funcName = "scatter_plot" then
          if scatterArgsOk argResults then
            (⟨"/* scatter_plot call */", .scalar, true⟩,
             emit 1 (scatterPlotLine argResults) s)
          else
            scatterPlotError s
        else
          let argStr := String.intercalate (", ") (argResults.map genericArgText)
          let p := new_temp_scalar_var s
          let s := emit 1 (p.1 ++ " = " ++ funcName ++ "(" ++ argStr ++
                            "); // Generic function call result") p.2
          (⟨p.1, .scalar, false⟩, s)
  | other =>
      let s := emit 1 ("// Expression generation not implemented for node type " ++
                        toString other.typeNum) s
      (⟨"/* UNIMPL EXPR " ++ toString other.typeNum ++ " */", .scalar, true⟩, s)

/-- The element loop of the vector-literal case: generates each element,
emitting its code (or the `0.0` placeholder when the element does not resolve
to Scalar) into the initializer array, comma-separated except after the last
element.  `i` is the current index, `count` the total element count. -/
def genVectorElements (elems : List ASTNode) (i count : Nat) (s : CGState) : CGState :=
  match elems with
  | [] => s
  | e :: rest =>
      let p := generate_expression e s
      let comma := if i = count - 1 then "" else ","
      let s :=
        if p.1.type ≠ SymbolType.scalar then
          emit 2 ("/* WARNING: Non-scalar in vector literal */ 0.0" ++ comma) p.2
        else
          emit 2 (p.1.code ++ comma) p.2
      genVectorElements rest (i + 1) count s

/-- The argument loop of the function-call case: generates code for all
arguments in order, collecting their `ExprResult`s. -/
def generate_arguments (args : List ASTNode) (s : CGState) : List ExprResult × CGState :=
  match args with
  | [] => ([], s)
  | a :: rest =>
      let p := generate_expression a s
      let q := generate_arguments rest p.2
      (p.1 :: q.1, q.2)

end

/-- Is this node a `scatter_plot` function call?  (The condition of
codegen.c line 600 deciding whether an expression statement gets the
value-discard wrapper.) -/
def isScatterPlotCall : ASTNode → Bool
  | .funcCall callee _ => callee.name = "scatter_plot"
  | _ => false

mutual

/-- `generate_statement` of codegen.c: translates one statement node.
Returns immediately (emitting nothing) once the sticky error flag is set. -/
def generate_statement (node : ASTNode) (s : CGState) : CGState :=
  if s.err = true then s
  else
    match node with
    | .statementList stmts =>
        let s := emit 1 ("\x7b // Start block") s
        let s := generate_statement_list stmts s
        emit 1 ("\x7d // End block") s
    | .assignment target e =>
        let s := emit 1 ("// Assignment to " ++ target.name ++ " (Type: " ++
                          toString target.type.toNat ++ ")") s
        let p := generate_expression e s
        let er := p.1
        let s := p.2
        if s.err = true then s
        else
          let s := emit 1 ("// RHS Type: " ++ toString er.type.toNat) s
          if ¬ ((target.type = SymbolType.scalar ∧ er.type = SymbolType.scalar) ∨
                (target.type = SymbolType.vector ∧ er.type = SymbolType.vector)) then
            report_codegen_error ("Type mismatch in assignment to \x27" ++
              target.name ++ "\x27 (Target: " ++ toString target.type.toNat ++
              ", RHS: " ++ toString er.type.toNat ++ ")") s
          else if target.type = SymbolType.scalar then
            emit 1 (target.name ++ " = " ++ er.code ++ ";") s
          else
            emit 1 ("vector_assign(&" ++ target.name ++ ", " ++ er.code ++ ");") s
    | .ifStmt cond ifBranch elseBranch =>
        let s := emit 1 ("// If statement") s
        let p := generate_expression cond s
        let er := p.1
        let s := p.2
        if s.err = true then emit 1 ("if (0) \x7b // Type error in condition") s
        else
          let s :=
            if er.type ≠ SymbolType.scalar then
              let s := report_codegen_error ("Non-scalar condition used for IF statement.") s
              emit 1 ("if (0) \x7b // Type error in condition") s
            else
              emit 1 ("if ((" ++ er.code ++ ") != 0.0) \x7b") s
          let s := generate_statement ifBranch s
          let s := emit 1 ("\x7d") s
          generate_else_branch elseBranch s
    | .whileStmt cond body =>
        let s := emit 1 ("// While loop") s
        let p := generate_expression cond s
        let er := p.1
        let s := p.2
        if s.err = true then emit 1 ("while (0) \x7b // Type error in condition") s
        else
          let s :=
            if er.type ≠ SymbolType.scalar then
              let s := report_codegen_error ("Non-scalar condition used for WHILE statement.") s
              emit 1 ("while (0) \x7b // Type error in condition") s
            else
              emit 1 ("while ((" ++ er.code ++ ") != 0.0) \x7b") s
          let s := generate_statement body s
          emit 1 ("\x7d // End while") s
    | other =>
        let s := emit 1 ("// Expression/Call statement (value discarded)") s
        let p := generate_expression other s
        let er := p.1
        let s := p.2
        let s :=
          if isScatterPlotCall other then s
          else emit 1 ("(void)(" ++ er.code ++ "); // Discard result") s
        if er.type = SymbolType.vector ∧ er.is_temporary = false then
          emit 1 ("// vector_free_data(&" ++ er.code ++
                   "); // Free temp vector result if needed") s
        else s

/-- The optional else branch of an If statement (codegen.c lines 635-639):
when present, emits the `else` scope and translates the branch. -/
def generate_else_branch (elseBranch : Option ASTNode) (s : CGState) : CGState :=
  match elseBranch with
  | some eb =>
      let s := emit 1 ("else \x7b") s
      let s := generate_statement eb s
      emit 1 ("\x7d") s
  | none => s

/-- The statement loop of the block case: translates each child statement in
order, threading the state. -/
def generate_statement_list (stmts : List ASTNode) (s : CGState) : CGState :=
  match stmts with
  | [] => s
  | st :: rest => generate_statement_list rest (generate_statement st s)

end

/-- The fixed text emitted by `generate_runtime_helpers` (codegen.c lines
82-220), as (indent level, line text) pairs.  The helper emit calls pass no
varargs, so conversion directives left in their format strings (the `%ld`
uses) are modelled by the literal directive text; the one escaped `%%lf`
renders as `%lf`.  The two C string literals containing a raw `\x27\n\x27`
escape produce a real newline character inside the emitted line. -/
def runtimeHelperLines : List (Nat × String) :=
  [ (0, "// --- Runtime Helper Functions ---"),
    (0, "typedef struct \x7b"),
    (1, "double* data;"),
    (1, "size_t size;"),
    (0, "\x7d Vector;"),
    (0, ""),
    (0, "// Creates a vector (allocates data). Caller must free using vector_free."),
    (0, "Vector vector_create(size_t size) \x7b"),
    (1, "Vector v;"),
    (1, "v.size = size;"),
    (1, "if (size > 0) \x7b"),
    (2, "v.data = (double*)malloc(size * sizeof(double));"),
    (2, "if (!v.data) \x7b perror(\"vector_create malloc failed\"); exit(1); \x7d"),
    (1, "\x7d else \x7b"),
    (2, "v.data = NULL;"),
    (1, "\x7d"),
    (1, "return v;"),
    (0, "\x7d"),
    (0, ""),
    (0, "// Frees the data array within a vector struct."),
    (0, "void vector_free_data(Vector *v) \x7b"),
    (1, "if (v && v->data) \x7b"),
    (2, "free(v->data);"),
    (2, "v->data = NULL;"),
    (2, "v->size = 0;"),
    (1, "\x7d"),
    (0, "\x7d"),
    (0, ""),
    (0, "// Assigns vector src to dst (deep copy). Frees existing dst data."),
    (0, "void vector_assign(Vector *dst, const Vector src) \x7b"),
    (1, "vector_free_data(dst); // Free existing data in destination"),
    (1, "dst->size = src.size;"),
    (1, "if (src.size > 0 && src.data) \x7b"),
    (2, "dst->data = (double*)malloc(src.size * sizeof(double));"),
    (2, "if (!dst->data) \x7b perror(\"vector_assign malloc failed\"); exit(1); \x7d"),
    (2, "memcpy(dst->data, src.data, src.size * sizeof(double));"),
    (1, "\x7d else \x7b"),
    (2, "dst->data = NULL;"),
    (1, "\x7d"),
    (0, "\x7d"),
    (0, ""),
    (0, "// Adds two vectors element-wise. Creates a new result vector."),
    (0, "Vector vector_add(Vector v1, Vector v2) \x7b"),
    (1, "if (v1.size != v2.size) \x7b fprintf(stderr, \"Runtime Error: Vector size mismatch for add (%ld != %ld)\\n\", (long)v1.size, (long)v2.size); exit(1); \x7d"),
    (1, "Vector result = vector_create(v1.size);"),
    (1, "for (size_t i = 0; i < result.size; ++i) \x7b"),
    (2, "result.data[i] = v1.data[i] + v2.data[i];"),
    (2, "\x7d"),
    (1, "return result;"),
    (0, "\x7d"),
    (0, ""),
    (0, "// Subtracts v2 from v1 element-wise. Creates a new result vector."),
    (0, "Vector vector_sub(Vector v1, Vector v2) \x7b"),
    (1, "if (v1.size != v2.size) \x7b fprintf(stderr, \"Runtime Error: Vector size mismatch for sub (%ld != %ld)\\n\", (long)v1.size, (long)v2.size); exit(1); \x7d"),
    (1, "Vector result = vector_create(v1.size);"),
    (1, "for (size_t i = 0; i < result.size; ++i) \x7b"),
    (2, "result.data[i] = v1.data[i] - v2.data[i];"),
    (2, "\x7d"),
    (1, "return result;"),
    (0, "\x7d"),
    (0, ""),
    (0, "// Multiplies two vectors element-wise. Creates a new result vector."),
    (0, "Vector vector_mul(Vector v1, Vector v2) \x7b"),
    (1, "if (v1.size != v2.size) \x7b fprintf(stderr, \"Runtime Error: Vector size mismatch for mul (%ld != %ld)\\n\", (long)v1.size, (long)v2.size); exit(1); \x7d"),
    (1, "Vector result = vector_create(v1.size);"),
    (1, "for (size_t i = 0; i < result.size; ++i) \x7b"),
    (2, "result.data[i] = v1.data[i] * v2.data[i];"),
    (2, "\x7d"),
    (1, "return result;"),
    (0, "\x7d"),
    (0, ""),
    (0, "// Divides v1 by v2 element-wise. Creates a new result vector. Checks for division by zero."),
    (0, "Vector vector_div(Vector v1, Vector v2) \x7b"),
    (1, "if (v1.size != v2.size) \x7b fprintf(stderr, \"Runtime Error: Vector size mismatch for div (%ld != %ld)\\n\", (long)v1.size, (long)v2.size); exit(1); \x7d"),
    (1, "Vector result = vector_create(v1.size);"),
    (1, "for (size_t i = 0; i < result.size; ++i) \x7b"),
    (2, "if (v2.data[i] == 0.0) \x7b fprintf(stderr, \"Runtime Error: Division by zero in vector division at index %ld\\n\", (long)i); exit(1); \x7d"),
    (2, "result.data[i] = v1.data[i] / v2.data[i];"),
    (2, "\x7d"),
    (1, "return result;"),
    (0, "\x7d"),
    (0, ""),
    (0, "// Adds scalar to each element of a vector. Creates new vector."),
    (0, "Vector vector_add_scalar(Vector v, double s) \x7b"),
    (1, "Vector result = vector_create(v.size);"),
    (1, "for (size_t i = 0; i < result.size; ++i) \x7b"),
    (2, "result.data[i] = v.data[i] + s;"),
    (1, "\x7d"),
    (1, "return result;"),
    (0, "\x7d"),
    (0, ""),
    (0, "// Reads a vector (space-separated doubles) from stdin until newline."),
    (0, "Vector runtime_read_vector() \x7b"),
    (1, "Vector v = vector_create(0); // Start with empty vector"),
    (1, "double num;"),
    (1, "size_t capacity = 0;"),
    (1, "printf(\"\">>> Enter vector elements separated by spaces, then press Enter:\\n\");"),
    (1, "int status;"),
    (1, "while ((status = scanf(\"%lf\", &num)) == 1) \x7b // Escaped % in scanf format string"),
    (2, "// Resize buffer if needed (simple doubling strategy)"),
    (2, "if (v.size >= capacity) \x7b"),
    (3, "capacity = (capacity == 0) ? 8 : capacity * 2;"),
    (3, "double* new_data = (double*)realloc(v.data, capacity * sizeof(double));"),
    (3, "if (!new_data) \x7b perror(\"read_vector realloc failed\"); vector_free_data(&v); exit(1); \x7d"),
    (3, "v.data = new_data;"),
    (2, "\x7d"),
    (2, "v.data[v.size++] = num;"),
    (2, "// Stop reading on newline character"),
    (2, "char next_char = getchar();"),
    (2, "if (next_char == \x27\n\x27 || next_char == EOF) \x7b break; \x7d"),
    (2, "ungetc(next_char, stdin); // Put back non-newline char"),
    (1, "\x7d"),
    (1, "// Handle case where scanf failed before reading any number or after some numbers"),
    (1, "if (status != 1 && v.size == 0) \x7b // Check if scanf failed immediately"),
    (2, "fprintf(stderr, \"Runtime Error: Invalid input - expected numbers.\\n\");"),
    (1, "\x7d"),
    (1, "// Clear remaining input buffer until newline or EOF"),
    (1, "int c;"),
    (1, "while ((c = getchar()) != \x27\n\x27 && c != EOF);"),
    (1, "printf(\"\"<<< Read %ld elements.\\n\"\", (long)v.size); // Confirmation with escaped quotes"),
    (1, "return v;"),
    (0, "\x7d"),
    (0, ""),
    (0, "// --- End Runtime Helper Functions ---"),
    (0, "") ]

/-- `generate_runtime_helpers`: emits the fixed runtime support library. -/
def generate_runtime_helpers (s : CGState) : CGState :=
  runtimeHelperLines.foldl (fun acc p => emit p.1 p.2 acc) s

/-- The declaration line `declare_variables` emits for one symbol. -/
def declare_variable_line (sym : SymRef) : String :=
  if sym.type = SymbolType.scalar then
    "double " ++ sym.name ++ " = 0.0;"
  else if sym.type = SymbolType.vector then
    "Vector " ++ sym.name ++ " = \x7b NULL, 0 \x7d;"
  else
    "// WARNING: Undefined symbol type for " ++ sym.name

/-- `declare_variables`: one declaration per symbol in the table enumeration
order (head first), then the fixed pool of 20 scalar and 20 vector
temporaries, declared unconditionally. -/
def declare_variables (symtab : List SymRef) (s : CGState) : CGState :=
  let s := emit 1 ("// --- Variable Declarations ---") s
  let s := symtab.foldl (fun acc sym => emit 1 (declare_variable_line sym) acc) s
  let s := emit 1 ("// Temporary variables (up to 20 scalar, 20 vector)") s
  let s := (List.range 20).foldl (fun acc i =>
      let acc := emit 1 ("double _ts" ++ toString i ++ ";") acc
      emit 1 ("Vector _tv" ++ toString i ++ " = \x7b NULL, 0 \x7d;") acc) s
  let s := emit 1 ("// ---------------------------") s
  emit 0 ("") s

/-- `generate_cleanup_code`: frees every Vector symbol of the table and the
vector temporary `_tv<i>` for every index `i` below the final value of the
shared temporary counter. -/
def generate_cleanup_code (symtab : List SymRef) (s : CGState) : CGState :=
  let s := emit 1 ("// --- Cleanup Code ---") s
  let s := symtab.foldl (fun acc sym =>
      if sym.type = SymbolType.vector then
        emit 1 ("vector_free_data(&" ++ sym.name ++ ");") acc
      else acc) s
  let s := (List.range s.temp).foldl (fun acc i =>
      emit 1 ("vector_free_data(&_tv" ++ toString i ++ ");") acc) s
  let s := emit 1 ("// --------------------") s
  emit 0 ("") s

/-- The two file-scope globals of codegen.c as they persist between calls of
`generate_code`. -/
structure Globals where
  temp_var_counter : Nat
  codegen_error_occurred : Bool
deriving DecidableEq, Repr

/-- `generate_code` (the entry point): on a statement-list root it resets the
two globals, emits the boilerplate, runtime helpers, `main`, declarations,
translated statements and cleanup, and reports failure via the error flag;
on any other root it returns without touching the globals.  The result is
the produced file (as `CGState`, `none` when nothing was generated) and the
final global state.  (Opening the output file cannot fail in the model.) -/
def generate_code (g : Globals) (ast_root : ASTNode) (symtab : List SymRef) :
    Option CGState × Globals :=
  match ast_root with
  | .statementList stmts =>
      let s : CGState := { out := [], temp := g.temp_var_counter,
                           err := g.codegen_error_occurred, errMsgs := [] }
      let s := { s with temp := 0, err := false }
      let s := emit 0 ("// Generated by WIZUALL Compiler") s
      let s := emit 0 ("") s
      let s := emit 0 ("#include <stdio.h>") s
      let s := emit 0 ("#include <stdlib.h>") s
      let s := emit 0 ("#include <math.h>") s
      let s := emit 0 ("#include <string.h> // For memcpy") s
      let s := emit 0 ("#include <stddef.h> // For size_t") s
      let s := emit 0 ("#include <assert.h>") s
      let s := emit 0 ("#include \"runtime_viz.h\" // Include viz function declarations") s
      let s := emit 0 ("") s
      let s := generate_runtime_helpers s
      let s := emit 0 ("// --- Main Program ---") s
      let s := emit 0 ("int main() \x7b") s
      let s := emit 1 ("printf(\"Executing generated code...\\n\");") s
      let s := emit 0 ("") s
      let s := declare_variables symtab s
      let s := emit 1 ("// --- Program Statements ---") s
      let s := generate_statement (.statementList stmts) s
      let s := emit 1 ("// ------------------------") s
      let s := emit 0 ("") s
      let s := generate_cleanup_code symtab s
      let s := emit 1 ("printf(\"Code execution finished.\\n\");") s
      let s := emit 1 ("return 0;") s
      let s := emit 0 ("\x7d // end main") s
      (some s, { temp_var_counter := s.temp, codegen_error_occurred := s.err })
  | _ => (none, g)

/-- The lines of the generated output file (empty when generation was refused
because the root is not a statement list). -/
def genOut (g : Globals) (root : ASTNode) (symtab : List SymRef) : List String :=
  ((generate_code g root symtab).1.map CGState.out).getD []

/-! ## Symbol table model (src/wizuallc/src/symtab.c)

A `Symbol` node of the global linked list.  The C `value` union is modelled
with separate fields; access is type-guarded exactly as in the C code, and
`free_symbol_value_data` only clears the vector payload.  A NULL `data`
pointer is `none`; an owned buffer is `some` of its contents.  The list
itself models the chain of `next` pointers from `symbol_list_head`; a symbol
handle (a C `Symbol*`) is modelled by the index of the entry from the head.
The NULL-name / out-of-memory paths abort the process in C and are outside
the model (names are always present here). -/

structure SymEntry where
  name : String
  type : SymbolType
  scalar_value : Rat
  vector_data : Option (List Rat)
  vector_size : Nat
deriving DecidableEq, Repr

/-- `free_symbol_value_data`: frees the vector payload when present
(type is Vector and data non-NULL), clearing data and size. -/
def free_symbol_value_data (sym : SymEntry) : SymEntry :=
  if sym.type = SymbolType.vector ∧ sym.vector_data ≠ none then
    { sym with vector_data := none, vector_size := 0 }
  else sym

/-- `symbol_lookup`: O(n) scan from the head, returning the handle (index
from head) of the first entry with an exactly matching name. -/
def symbol_lookup (tbl : List SymEntry) (name : String) : Option Nat :=
  match tbl with
  | [] => none
  | sym :: rest =>
      if sym.name = name then some 0
      else (symbol_lookup rest name).map (fun i => i + 1)

/-- The default-initialized entry `symbol_insert` creates:
kind Scalar, value 0.0. -/
def defaultSymbol (name : String) : SymEntry :=
  { name := name, type := SymbolType.scalar, scalar_value := 0,
    vector_data := none, vector_size := 0 }

/-- `symbol_insert`: returns the existing handle when the name is already
present, otherwise links a fresh Scalar(0.0) entry at the head of the list
and returns its handle. -/
def symbol_insert (tbl : List SymEntry) (name : String) : Nat × List SymEntry :=
  match symbol_lookup tbl name with
  | some i => (i, tbl)
  | none => (0, defaultSymbol name :: tbl)

/-- `symbol_set_vector` on a handle (`none` models a NULL `Symbol*`, on
which the C function returns without effect): frees the old payload,
switches the kind to Vector, stores the passed length in the size field
unconditionally, and then either leaves the data pointer NULL (when the
length is 0 or the source pointer is NULL) or deep-copies the first
`size` elements of the source buffer into fresh storage. -/
def symbol_set_vector (sym : Option SymEntry) (data : Option (List Rat))
    (size : Nat) : Option SymEntry :=
  match sym with
  | none => none
  | some sym =>
      let sym := free_symbol_value_data sym
      let sym := { sym with type := SymbolType.vector, vector_size := size }
      if size = 0 ∨ data = none then
        some { sym with vector_data := none }
      else
        some { sym with vector_data := some ((data.getD []).take size) }

/-! ## Scalar-only programs (claim C4)

An expression is scalar-only when it contains no vector literal, every
identifier it references has Scalar kind, and no (sub)call targets the
vector-producing built-in `read_vector`; statement-kind nodes in expression
position are excluded.  A statement is scalar-only when every expression in
it is, and every assignment target has Scalar kind. -/

mutual

def scalarOnlyExpr : ASTNode → Bool
  | .number _ => true
  | .identifier sym => sym.type = SymbolType.scalar
  | .binaryOp _ l r => scalarOnlyExpr l && scalarOnlyExpr r
  | .unaryOp _ e => scalarOnlyExpr e
  | .funcCall callee args => (callee.name ≠ "read_vector" : Bool) && scalarOnlyExprList args
  | _ => false

def scalarOnlyExprList : List ASTNode → Bool
  | [] => true
  | e :: rest => scalarOnlyExpr e && scalarOnlyExprList rest

end

mutual

def scalarOnlyStmt : ASTNode → Bool
  | .assignment target e => (target.type = SymbolType.scalar : Bool) && scalarOnlyExpr e
  | .statementList stmts => scalarOnlyStmtList stmts
  | .ifStmt cond ifBranch elseBranch =>
      scalarOnlyExpr cond && scalarOnlyStmt ifBranch &&
        (match elseBranch with
         | some eb => scalarOnlyStmt eb
         | none => true)
  | .whileStmt cond body => scalarOnlyExpr cond && scalarOnlyStmt body
  | other => scalarOnlyExpr other

def scalarOnlyStmtList : List ASTNode → Bool
  | [] => true
  | st :: rest => scalarOnlyStmt st && scalarOnlyStmtList rest

end

/-- The declaration lines of the fixed vector-temporary pool
(`Vector _tv0 = { NULL, 0 };` through `_tv19`), as emitted at indent 1 by
`declare_variables`. -/
def vectorTempPoolLines : List String :=
  (List.range 20).map (fun i =>
    indentStr 1 ++ "Vector _tv" ++ toString i ++ " = \x7b NULL, 0 \x7d;")

/-- The lines of `declare_variables` past the per-symbol declarations:
the temporary-pool comment, the 40 pool declarations, the closing comment
and the blank line. -/
def declTailLines : List String :=
  [indentStr 1 ++ "// Temporary variables (up to 20 scalar, 20 vector)"] ++
  (List.range 20).flatMap (fun i =>
    [indentStr 1 ++ "double _ts" ++ toString i ++ ";",
     indentStr 1 ++ "Vector _tv" ++ toString i ++ " = \x7b NULL, 0 \x7d;"]) ++
  [indentStr 1 ++ "// ---------------------------", ""]

/-! ## Helper lemmas -/

/-- `emit` appends exactly one line to the output. -/
theorem emit_out (k : Nat) (t : String) (s : CGState) :
    (emit k t s).out = s.out ++ [indentStr k ++ t] := rfl

/-- Indent level 0 adds no spaces. -/
theorem indentStr_zero : indentStr 0 = "" := rfl

/-- `emit` does not touch the error flag. -/
theorem emit_err (k : Nat) (t : String) (s : CGState) :
    (emit k t s).err = s.err := rfl

set_option maxHeartbeats 4000000 in
/-- Statement translation returns its state unchanged once the sticky error
flag is set (codegen.c line 542). -/
theorem generate_statement_err_skip (node : ASTNode) (s : CGState)
    (h : s.err = true) : generate_statement node s = s := by
  rw [generate_statement.eq_def, h]
  simp

/-- A whole run of remaining statements is a no-op once the sticky error
flag is set. -/
theorem generate_statement_list_err_skip (stmts : List ASTNode) (s : CGState)
    (h : s.err = true) : generate_statement_list stmts s = s := by
  induction stmts with
  | nil => simp [generate_statement_list]
  | cons st rest ih =>
      simp only [generate_statement_list]
      rw [generate_statement_err_skip st s h]
      exact ih

/-- Argument generation produces one result per argument. -/
theorem generate_arguments_length (args : List ASTNode) (s : CGState) :
    (generate_arguments args s).1.length = args.length := by
  induction args generalizing s with
  | nil => simp [generate_arguments]
  | cons a rest ih => simp [generate_arguments, ih]

/-- Folding a state transformer that appends a fixed block of lines per
element appends the concatenation of those blocks. -/
theorem foldl_out_append {α : Type} (f : CGState → α → CGState)
    (g : α → List String) (hf : ∀ s x, (f s x).out = s.out ++ g x)
    (l : List α) (s : CGState) :
    (l.foldl f s).out = s.out ++ l.flatMap g := by
  induction l generalizing s with
  | nil => simp
  | cons a rest ih => simp [List.foldl_cons, ih, hf, List.append_assoc]

/-- The complete output of `declare_variables`: header, one line per symbol
in table order, then the fixed tail with the temporary pool. -/
theorem declare_variables_out (tab : List SymRef) (s : CGState) :
    (declare_variables tab s).out =
      s.out ++ ([indentStr 1 ++ "// --- Variable Declarations ---"] ++
        tab.flatMap (fun sym => [indentStr 1 ++ declare_variable_line sym]) ++
        declTailLines) := by
  simp only [declare_variables]
  rw [emit_out, emit_out]
  rw [foldl_out_append _
        (fun i => [indentStr 1 ++ "double _ts" ++ toString i ++ ";",
                   indentStr 1 ++ "Vector _tv" ++ toString i ++ " = \x7b NULL, 0 \x7d;"])
        (fun s x => by simp [emit, List.append_assoc, String.append_assoc])]
  rw [emit_out]
  rw [foldl_out_append _
        (fun sym => [indentStr 1 ++ declare_variable_line sym])
        (fun s x => by simp [emit])]
  rw [emit_out]
  simp [declTailLines, List.append_assoc, indentStr_zero]

/-- Every line of the fixed vector-temporary pool is declared by
`declare_variables`, whatever the symbol table and prior state. -/
theorem declare_variables_pool_declared (tab : List SymRef) (s : CGState) :
    vectorTempPoolLines.all
      (fun l => (declare_variables tab s).out.contains l) = true := by
  rw [List.all_eq_true]
  intro l hl
  have hmem : l ∈ declTailLines := by
    have hall : vectorTempPoolLines.all (fun x => declTailLines.contains x) = true := by
      decide
    rw [List.all_eq_true] at hall
    simpa using hall l hl
  have hout : l ∈ (declare_variables tab s).out := by
    rw [declare_variables_out]
    simp [List.mem_append, hmem]
  simpa using hout

/-- Scalar-only expressions always resolve to kind Scalar, whatever the
incoming state. -/
theorem scalar_only_expr_type : ∀ (e : ASTNode) (s : CGState),
    scalarOnlyExpr e = true →
    (generate_expression e s).1.type = SymbolType.scalar
  | .number _, s, _ => by simp [generate_expression]
  | .identifier sym, s, h => by
      simp [scalarOnlyExpr] at h
      simp [generate_expression, h]
  | .binaryOp op l r, s, h => by
      simp only [scalarOnlyExpr, Bool.and_eq_true] at h
      have hl := scalar_only_expr_type l s h.1
      have hr := scalar_only_expr_type r (generate_expression l s).2 h.2
      simp [generate_expression, hl, hr, new_temp_scalar_var]
  | .unaryOp op e, s, _ => by
      simp only [generate_expression]
      split
      · simp [new_temp_scalar_var]
      · simp
  | .funcCall callee args, s, h => by
      simp only [scalarOnlyExpr, Bool.and_eq_true, decide_eq_true_eq] at h
      simp only [generate_expression]
      rw [if_neg h.1]
      split
      · split
        · simp
        · simp [scatterPlotError]
      · simp
  | .vectorLit _, s, h => by simp [scalarOnlyExpr] at h
  | .assignment _ _, s, h => by simp [scalarOnlyExpr] at h
  | .statementList _, s, h => by simp [scalarOnlyExpr] at h
  | .ifStmt _ _ _, s, h => by simp [scalarOnlyExpr] at h
  | .whileStmt _ _, s, h => by simp [scalarOnlyExpr] at h

/-! ## Claim theorems -/

/-- C1 counterexample: for the vector literal `[v]` with `v` a vector-kind
identifier (a non-scalar element), generation emits the `0.0` placeholder
line, yet the sticky error flag stays `false` — no semantic error is
recorded, contrary to the claim. -/
theorem C1_counterexample :
    ((generate_expression (.vectorLit [.identifier ⟨"v", .vector⟩]) initState).2.err
        = false) ∧
    ((indentStr 2 ++ "/* WARNING: Non-scalar in vector literal */ 0.0") ∈
      (generate_expression (.vectorLit [.identifier ⟨"v", .vector⟩]) initState).2.out) := by
  decide

/-- C1 (amended): when a vector-literal element resolves to a non-Scalar
kind, the element step emits exactly the `0.0` placeholder line (with the
positional comma) into the initializer and leaves the error flag exactly as
the element generation left it — it does not record a semantic error. -/
theorem C1_vector_literal_placeholder_no_error (e : ASTNode) (i count : Nat)
    (s : CGState)
    (h : (generate_expression e s).1.type ≠ SymbolType.scalar) :
    genVectorElements [e] i count s =
      emit 2 ("/* WARNING: Non-scalar in vector literal */ 0.0" ++
        (if i = count - 1 then "" else ",")) (generate_expression e s).2 ∧
    (genVectorElements [e] i count s).err = (generate_expression e s).2.err := by
  have h1 : genVectorElements [e] i count s =
      emit 2 ("/* WARNING: Non-scalar in vector literal */ 0.0" ++
        (if i = count - 1 then "" else ",")) (generate_expression e s).2 := by
    simp [genVectorElements, h]
  exact ⟨h1, by rw [h1, emit_err]⟩

/-- Witness for C1: the vector-kind identifier `v` as sole element, index 0
of 1, from a fresh state. -/
theorem C1_witness :
    ((generate_expression (.identifier ⟨"v", .vector⟩) initState).1.type ≠
        SymbolType.scalar) ∧
    (genVectorElements [.identifier ⟨"v", .vector⟩] 0 1 initState =
      emit 2 ("/* WARNING: Non-scalar in vector literal */ 0.0" ++
        (if 0 = 1 - 1 then "" else ","))
        (generate_expression (.identifier ⟨"v", .vector⟩) initState).2 ∧
    (genVectorElements [.identifier ⟨"v", .vector⟩] 0 1 initState).err =
      (generate_expression (.identifier ⟨"v", .vector⟩) initState).2.err) :=
  ⟨by decide,
   C1_vector_literal_placeholder_no_error (.identifier ⟨"v", .vector⟩) 0 1 initState
     (by decide)⟩

/-- C2 counterexample: a program of two statements that each record a
semantic error when translated alone.  Translating the two-statement program
records only ONE diagnostic — the second statement is skipped entirely, so
its independent error is not surfaced in the same pass, contrary to the
claim. -/
theorem C2_counterexample :
    ((generate_statement
        (.statementList [.unaryOp '+' (.number 1), .unaryOp '*' (.number 2)])
        initState).errMsgs.length = 1) ∧
    ((generate_statement (.statementList [.unaryOp '*' (.number 2)])
        initState).errMsgs.length = 1) := by
  decide

/-- C2 (amended): once translating a statement has set the sticky error
flag, the walk over all remaining statements of the list is a complete
no-op: the final state is exactly the state after the failing statement, so
no later independent error can be recorded in the same pass. -/
theorem C2_error_abandons_walk (st : ASTNode) (rest : List ASTNode)
    (s : CGState) (h : (generate_statement st s).err = true) :
    generate_statement_list (st :: rest) s = generate_statement st s := by
  simp only [generate_statement_list]
  exact generate_statement_list_err_skip rest _ h

/-- Witness for C2: an erroring unary statement followed by a well-typed
assignment; the walk stops at the first statement. -/
theorem C2_witness :
    ((generate_statement (.unaryOp '+' (.number 1)) initState).err = true) ∧
    (generate_statement_list
        [.unaryOp '+' (.number 1), .assignment ⟨"x", .scalar⟩ (.number 1)]
        initState =
      generate_statement (.unaryOp '+' (.number 1)) initState) :=
  ⟨by decide,
   C2_error_abandons_walk (.unaryOp '+' (.number 1))
     [.assignment ⟨"x", .scalar⟩ (.number 1)] initState (by decide)⟩

/-- C3 counterexample: for `5 + v` (Scalar + Vector, operator `+`), the one
emitted line passes the VECTOR operand first — `vector_add_scalar(v, 5)` —
not the operands in source order as the claim states. -/
theorem C3_counterexample :
    (generate_expression (.binaryOp '+' (.number 5) (.identifier ⟨"v", .vector⟩))
        initState).2.out
      = [indentStr 1 ++ "_tv0 = vector_add_scalar(v, 5);"] := by
  decide

/-- C3 (amended): for a `+` between Vector and Scalar operands in either
order, a vector temporary is allocated and a `vector_add_scalar` call is
emitted whose first argument is always the VECTOR operand and whose second
is the scalar operand: source order when the left operand is the vector,
swapped when the left operand is the scalar. -/
theorem C3_broadcast_add_vector_first (l r : ASTNode) (s : CGState)
    (h : ((generate_expression l s).1.type = SymbolType.vector ∧
          (generate_expression r (generate_expression l s).2).1.type
            = SymbolType.scalar) ∨
         ((generate_expression l s).1.type = SymbolType.scalar ∧
          (generate_expression r (generate_expression l s).2).1.type
            = SymbolType.vector)) :
    generate_expression (.binaryOp '+' l r) s =
      (let lr := generate_expression l s
       let rr := generate_expression r lr.2
       let vec := if lr.1.type = SymbolType.vector then lr.1.code else rr.1.code
       let sca := if lr.1.type = SymbolType.vector then rr.1.code else lr.1.code
       let tv := "_tv" ++ toString rr.2.temp
       (⟨tv, SymbolType.vector, false⟩,
        emit 1 (tv ++ " = vector_add_scalar(" ++ vec ++ ", " ++ sca ++ ");")
          { rr.2 with temp := rr.2.temp + 1 })) := by
  rcases h with ⟨hl, hr⟩ | ⟨hl, hr⟩ <;>
    simp [generate_expression, hl, hr, new_temp_vector_var]

/-- Witness for C3: the Scalar + Vector case `5 + v`. -/
theorem C3_witness :
    (((generate_expression (.number 5) initState).1.type = SymbolType.vector ∧
      (generate_expression (.identifier ⟨"v", .vector⟩)
          (generate_expression (.number 5) initState).2).1.type
        = SymbolType.scalar) ∨
     ((generate_expression (.number 5) initState).1.type = SymbolType.scalar ∧
      (generate_expression (.identifier ⟨"v", .vector⟩)
          (generate_expression (.number 5) initState).2).1.type
        = SymbolType.vector)) ∧
    (generate_expression (.binaryOp '+' (.number 5) (.identifier ⟨"v", .vector⟩))
        initState =
      (let lr := generate_expression (.number 5) initState
       let rr := generate_expression (.identifier ⟨"v", .vector⟩) lr.2
       let vec := if lr.1.type = SymbolType.vector then lr.1.code else rr.1.code
       let sca := if lr.1.type = SymbolType.vector then rr.1.code else lr.1.code
       let tv := "_tv" ++ toString rr.2.temp
       (⟨tv, SymbolType.vector, false⟩,
        emit 1 (tv ++ " = vector_add_scalar(" ++ vec ++ ", " ++ sca ++ ");")
          { rr.2 with temp := rr.2.temp + 1 }))) :=
  ⟨Or.inr ⟨by decide, by decide⟩,
   C3_broadcast_add_vector_first (.number 5) (.identifier ⟨"v", .vector⟩) initState
     (Or.inr ⟨by decide, by decide⟩)⟩

/-- C7: code generation is a function of the AST root and symbol table
alone — the incoming values of the two file-scope globals are irrelevant
because `generate_code` resets `temp_var_counter` and
`codegen_error_occurred` to zero at the start of every run, so any two runs
on the same unchanged inputs (in particular, an immediate re-run) produce
byte-identical output. -/
theorem C7_generation_deterministic (g1 g2 : Globals) (root : ASTNode)
    (tab : List SymRef) :
    (generate_code g1 root tab).1 = (generate_code g2 root tab).1 := by
  cases root <;> rfl

/-- C8: if the sticky semantic-error flag is already set when statement
translation is entered, the translator returns its state unchanged — no
output is emitted for the statement and previously emitted output is
untouched. -/
theorem C8_sticky_error_short_circuit (node : ASTNode) (s : CGState)
    (h : s.err = true) : generate_statement node s = s :=
  generate_statement_err_skip node s h

set_option maxRecDepth 20000 in
/-- C4 counterexample: a program consisting of the single scalar-only
statement `x = 1 + 2` (no vector literal, no vector-kind symbol, no
vector-producing call), whose generated output nevertheless declares the
vector temporary `Vector _tv0 = { NULL, 0 };` — the fixed pool of vector
temporaries is declared regardless of the program, contrary to the claim. -/
theorem C4_counterexample :
    (scalarOnlyStmt (.statementList [.assignment ⟨"x", .scalar⟩
        (.binaryOp '+' (.number 1) (.number 2))]) = true) ∧
    ((indentStr 1 ++ "Vector _tv0 = \x7b NULL, 0 \x7d;") ∈
      genOut ⟨0, false⟩
        (.statementList [.assignment ⟨"x", .scalar⟩
          (.binaryOp '+' (.number 1) (.number 2))])
        [⟨"x", .scalar⟩]) := by
  decide

/-- C4 (amended): the fixed pool of 20 vector temporaries is declared by
`declare_variables` in every generated output, whatever the program and
symbol table; what does hold for scalar-only programs is that every
sub-expression resolves to kind Scalar, so no vector temporary is ever
allocated for them beyond that unconditional pre-declared pool. -/
theorem C4_scalar_only_pool_still_declared (tab : List SymRef) (s s2 : CGState)
    (e : ASTNode) (h : scalarOnlyExpr e = true) :
    (vectorTempPoolLines.all
      (fun l => (declare_variables tab s).out.contains l) = true) ∧
    (generate_expression e s2).1.type = SymbolType.scalar :=
  ⟨declare_variables_pool_declared tab s, scalar_only_expr_type e s2 h⟩

/-- Witness for C4: the scalar-only expression `1 + 2` and a one-symbol
scalar table. -/
theorem C4_witness :
    (scalarOnlyExpr (.binaryOp '+' (.number 1) (.number 2)) = true) ∧
    ((vectorTempPoolLines.all
      (fun l => (declare_variables [⟨"x", .scalar⟩] initState).out.contains l)
        = true) ∧
    (generate_expression (.binaryOp '+' (.number 1) (.number 2)) initState).1.type
      = SymbolType.scalar) :=
  ⟨by decide,
   C4_scalar_only_pool_still_declared [⟨"x", .scalar⟩] initState initState
     (.binaryOp '+' (.number 1) (.number 2)) (by decide)⟩

/-- C5: for an assignment entered with no prior error whose right-hand
side generates without recording an error (result `p`), the assignment is
kind-checked: when the target kind equals the resolved kind the assignment
is emitted (a direct `=` for Scalar targets, a `vector_assign` deep-copy
call for Vector targets); when the kinds differ only a type-mismatch
semantic error is recorded (`report_codegen_error` sets the flag and emits
no output line), and the assignment itself is not emitted. -/
theorem C5_assignment_kind_check (target : SymRef) (e : ASTNode) (s : CGState)
    (p : ExprResult × CGState)
    (htk : target.type = SymbolType.scalar ∨ target.type = SymbolType.vector)
    (h0 : s.err = false)
    (hgen : generate_expression e (emit 1 ("// Assignment to " ++ target.name ++
              " (Type: " ++ toString target.type.toNat ++ ")") s) = p)
    (h1 : p.2.err = false) :
    generate_statement (.assignment target e) s =
      (let s2 := emit 1 ("// RHS Type: " ++ toString p.1.type.toNat) p.2
       if target.type = p.1.type then
         if target.type = SymbolType.scalar then
           emit 1 (target.name ++ " = " ++ p.1.code ++ ";") s2
         else
           emit 1 ("vector_assign(&" ++ target.name ++ ", " ++ p.1.code ++ ");") s2
       else
         report_codegen_error ("Type mismatch in assignment to \x27" ++ target.name ++
           "\x27 (Target: " ++ toString target.type.toNat ++ ", RHS: " ++
           toString p.1.type.toNat ++ ")") s2) := by
  rw [generate_statement.eq_def]
  rw [if_neg (show ¬(s.err = true) by simp [h0])]
  simp only [hgen]
  rcases htk with ht | ht <;> cases hpt : p.1.type <;> simp [h1, ht, hpt]

/-- Witness for C5: the scalar-to-scalar assignment `x = 7` from a fresh
state. -/
theorem C5_witness :
    ((⟨"x", .scalar⟩ : SymRef).type = SymbolType.scalar ∨
      (⟨"x", .scalar⟩ : SymRef).type = SymbolType.vector) ∧
    initState.err = false ∧
    (generate_expression (.number 7)
        (emit 1 ("// Assignment to " ++ (⟨"x", .scalar⟩ : SymRef).name ++
          " (Type: " ++ toString (⟨"x", .scalar⟩ : SymRef).type.toNat ++ ")")
          initState) =
      generate_expression (.number 7)
        (emit 1 ("// Assignment to " ++ (⟨"x", .scalar⟩ : SymRef).name ++
          " (Type: " ++ toString (⟨"x", .scalar⟩ : SymRef).type.toNat ++ ")")
          initState)) ∧
    (generate_expression (.number 7)
        (emit 1 ("// Assignment to " ++ (⟨"x", .scalar⟩ : SymRef).name ++
          " (Type: " ++ toString (⟨"x", .scalar⟩ : SymRef).type.toNat ++ ")")
          initState)).2.err = false ∧
    generate_statement (.assignment ⟨"x", .scalar⟩ (.number 7)) initState =
      (let p := generate_expression (.number 7)
        (emit 1 ("// Assignment to " ++ (⟨"x", .scalar⟩ : SymRef).name ++
          " (Type: " ++ toString (⟨"x", .scalar⟩ : SymRef).type.toNat ++ ")")
          initState)
       let s2 := emit 1 ("// RHS Type: " ++ toString p.1.type.toNat) p.2
       if (⟨"x", .scalar⟩ : SymRef).type = p.1.type then
         if (⟨"x", .scalar⟩ : SymRef).type = SymbolType.scalar then
           emit 1 ((⟨"x", .scalar⟩ : SymRef).name ++ " = " ++ p.1.code ++ ";") s2
         else
           emit 1 ("vector_assign(&" ++ (⟨"x", .scalar⟩ : SymRef).name ++ ", " ++
             p.1.code ++ ");") s2
       else
         report_codegen_error ("Type mismatch in assignment to \x27" ++
           (⟨"x", .scalar⟩ : SymRef).name ++ "\x27 (Target: " ++
           toString (⟨"x", .scalar⟩ : SymRef).type.toNat ++ ", RHS: " ++
           toString p.1.type.toNat ++ ")") s2) :=
  ⟨Or.inl rfl, rfl, rfl, by decide,
   C5_assignment_kind_check ⟨"x", .scalar⟩ (.number 7) initState _
     (Or.inl rfl) rfl rfl (by decide)⟩

/-- C6: a `scatter_plot` call first generates its arguments (results `p`);
when the argument results pass the check (exactly two results, both of
Vector kind — `scatterArgsOk`, with one result per argument by the second
conjunct) exactly one `c_scatter_plot` line passing each vector's data
pointer and length is appended; otherwise a semantic error is recorded via
`report_codegen_error` (which sets the flag and emits nothing), so no
plotting call is emitted.  Wrong arity makes `scatterArgsOk` false because
the result list has one entry per argument. -/
theorem C6_scatter_plot_check (ty : SymbolType) (args : List ASTNode)
    (s : CGState) :
    (let p := generate_arguments args
       (emit 1 ("// Generating function call: scatter_plot()") s)
     generate_expression (.funcCall ⟨"scatter_plot", ty⟩ args) s =
       (if scatterArgsOk p.1 then
          (⟨"/* scatter_plot call */", SymbolType.scalar, true⟩,
           emit 1 (scatterPlotLine p.1) p.2)
        else scatterPlotError p.2) ∧
     p.1.length = args.length) := by
  constructor
  · simp [generate_expression]
  · exact generate_arguments_length args _

/-- A name that `symbol_lookup` does not find occurs in no entry of the
table. -/
theorem symbol_lookup_none_filter (tbl : List SymEntry) (name : String)
    (h : symbol_lookup tbl name = none) :
    tbl.filter (fun e => e.name == name) = [] := by
  induction tbl with
  | nil => simp
  | cons a rest ih =>
      simp only [symbol_lookup] at h
      by_cases ha : a.name = name
      · simp [ha] at h
      · have hr : symbol_lookup rest name = none := by
          rcases hx : symbol_lookup rest name with _ | i
          · rfl
          · rw [if_neg ha, hx] at h
            simp at h
        simp [List.filter_cons, ha, ih hr]

/-- C9: symbol insertion is idempotent.  For any (non-empty) name: if the
name is already present, its existing handle is returned and the table is
untouched; otherwise exactly one new head entry is created,
default-initialized to kind Scalar with value 0, after which the table
holds exactly one entry of that name; and inserting the same name again
returns the same handle and the same table. -/
theorem C9_symbol_insert_idempotent (tbl : List SymEntry) (name : String)
    (h : name ≠ "") :
    (∀ i, symbol_lookup tbl name = some i → symbol_insert tbl name = (i, tbl)) ∧
    (symbol_lookup tbl name = none →
      symbol_insert tbl name = (0, defaultSymbol name :: tbl) ∧
      (defaultSymbol name).type = SymbolType.scalar ∧
      (defaultSymbol name).scalar_value = 0 ∧
      ((symbol_insert tbl name).2.filter (fun e => e.name == name)).length = 1) ∧
    (symbol_insert (symbol_insert tbl name).2 name =
      ((symbol_insert tbl name).1, (symbol_insert tbl name).2)) := by
  refine ⟨fun i hi => by simp [symbol_insert, hi], fun hn => ?_, ?_⟩
  · have hf := symbol_lookup_none_filter tbl name hn
    refine ⟨by simp [symbol_insert, hn], rfl, rfl, ?_⟩
    simp [symbol_insert, hn, List.filter_cons, defaultSymbol, hf]
  · rcases hl : symbol_lookup tbl name with _ | i
    · simp [symbol_insert, hl, symbol_lookup, defaultSymbol]
    · simp [symbol_insert, hl]

/-- Witness for C9: inserting the name `x` into the empty table. -/
theorem C9_witness :
    (("x" : String) ≠ "") ∧
    ((∀ i, symbol_lookup [] "x" = some i → symbol_insert [] "x" = (i, [])) ∧
     (symbol_lookup [] "x" = none →
       symbol_insert [] "x" = (0, defaultSymbol "x" :: []) ∧
       (defaultSymbol "x").type = SymbolType.scalar ∧
       (defaultSymbol "x").scalar_value = 0 ∧
       ((symbol_insert [] "x").2.filter (fun e => e.name == "x")).length = 1) ∧
     (symbol_insert (symbol_insert [] "x").2 "x" =
       ((symbol_insert [] "x").1, (symbol_insert [] "x").2))) :=
  ⟨by decide, C9_symbol_insert_idempotent [] "x" (by decide)⟩

/-- C10: `symbol_set_vector` on a non-null handle with length 0 or a NULL
data pointer frees the old payload, switches the kind to Vector with a NULL
data pointer (no allocation or copy), yet stores the passed length in the
size field — so NULL data with positive length yields a Vector whose
recorded size is positive while its backing storage is NULL. -/
theorem C10_set_vector_null_data (sym : SymEntry) (data : Option (List Rat))
    (size : Nat) (h : size = 0 ∨ data = none) :
    symbol_set_vector (some sym) data size =
      some { free_symbol_value_data sym with
               type := SymbolType.vector,
               vector_size := size,
               vector_data := none } := by
  simp only [symbol_set_vector]
  rw [if_pos h]

/-- Witness for C10: NULL data with positive length 3 on a fresh scalar
symbol; the recorded size is 3 while the storage stays NULL. -/
theorem C10_witness :
    ((3 : Nat) = 0 ∨ (none : Option (List Rat)) = none) ∧
    (symbol_set_vector (some (defaultSymbol "v")) none 3 =
      some { free_symbol_value_data (defaultSymbol "v") with
               type := SymbolType.vector,
               vector_size := 3,
               vector_data := none }) :=
  ⟨Or.inr rfl,
   C10_set_vector_null_data (defaultSymbol "v") none 3 (Or.inr rfl)⟩

/-- Witness for C8: an assignment statement entered with the flag set. -/
theorem C8_witness :
    (({ initState with err := true } : CGState).err = true) ∧
    (generate_statement (.assignment ⟨"x", .scalar⟩ (.number 1))
        { initState with err := true } =
      { initState with err := true }) :=
  ⟨rfl,
   C8_sticky_error_short_circuit (.assignment ⟨"x", .scalar⟩ (.number 1))
     { initState with err := true } rfl⟩

end Wizuall
